import Mathlib

/-!
Shallow embedding of `session/pingpong/hermes_promise_settler.go`
(MysteriumNetwork node, settlement coordination engine).

External collaborators (transactor, blockchain client, hermes HTTP caller,
storages) appear as oracle-environment records holding the results their
calls would return; the control flow, state mutation and effect ordering of
the Go source is translated faithfully.  Machine integers (`*big.Int`) are
modelled as `Int`; nil-able `*big.Int` as `Option Int`; `error` results as
inductive error codes.
-/

namespace HermesSettler

/-- `settlementState` (Go lines 822‑825): per-identity flags. Field order as in
the Go struct: `settleInProgress`, then `registered`. -/
structure SettlementState where
  settleInProgress : Bool
  registered       : Bool
  deriving DecidableEq, Repr

/-- `currentState map[identity.Identity]settlementState`: a Go map is a partial
map; a missing key reads as the zero value where the code reads without the
comma-ok form. -/
def Store := String → Option SettlementState

/-- The empty `currentState` map (as built by `NewHermesPromiseSettler`). -/
def emptyStore : Store := fun _ => none

/-- Point update of the state map. -/
def updateStore (st : Store) (id : String) (v : SettlementState) : Store :=
  fun x => if x = id then some v else st x

/-- `isSettling` (Go lines 774‑783): read under `RLock`; a missing entry reads
as not settling. -/
def isSettling (st : Store) (id : String) : Bool :=
  match st id with
  | none => false
  | some v => v.settleInProgress

/-- `setSettling` (Go lines 785‑791): read-modify-write under `Lock`; a missing
entry starts from the zero value `{false, false}`. -/
def setSettling (st : Store) (id : String) (settling : Bool) : Store :=
  let v := (st id).getD ⟨false, false⟩
  updateStore st id { v with settleInProgress := settling }

/-- `crypto.Promise` restricted to the fields the settler reads: `ChainID`,
`Amount`, `Fee`, and the secret `R` (raw bytes once decoded). -/
structure Promise where
  chainID : Int
  amount  : Int
  fee     : Int
  r       : List Nat
  deriving DecidableEq, Repr

/-- One hex digit (Go `encoding/hex`). -/
def hexDigit (c : Char) : Option Nat :=
  if '0' ≤ c ∧ c ≤ '9' then some (c.toNat - '0'.toNat)
  else if 'a' ≤ c ∧ c ≤ 'f' then some (c.toNat - 'a'.toNat + 10)
  else if 'A' ≤ c ∧ c ≤ 'F' then some (c.toNat - 'A'.toNat + 10)
  else none

/-- `hex.DecodeString` on a character list: fails on an odd length or an
invalid digit, as the Go standard library does. -/
def hexDecodeList : List Char → Option (List Nat)
  | [] => some []
  | [_] => none
  | c1 :: c2 :: rest =>
    match hexDigit c1, hexDigit c2, hexDecodeList rest with
    | some h, some l, some bs => some ((16 * h + l) :: bs)
    | _, _, _ => none

/-- `hex.DecodeString` (Go `encoding/hex`). -/
def hexDecode (s : String) : Option (List Nat) :=
  hexDecodeList s.data

/-- `crypto.Myst`: one MYST in base units (the token has 18 decimals);
constant imported from the external payments library. -/
def Myst : Int := 1000000000000000000

/-- Truncation toward zero of a rational, as `big.Float.Int` performs
(`calculatedThreshold.Int(nil)` at Go line 846 truncates toward zero). -/
def truncQ (q : ℚ) : Int := Int.tdiv q.num (q.den : Int)

/-- `HermesChannel.Channel` (provider channel snapshot): the settler reads
`Stake` and the nil-able `Settled` total. -/
structure ProviderChannel where
  stake   : Int
  settled : Option Int
  deriving DecidableEq, Repr

/-- `HermesChannel`: read-only snapshot of on-chain channel state for an
(identity, hermes) pair, plus the latest promise with its hex-encoded secret.

The derived quantities `unsettledBalance`, `availableBalance` and `balanceV`
are accessor methods defined in a file of this repository outside the given
source (`hermes_channel.go`). Modelled from the spec: the spec's data model
gives the Channel `stake`, `balance`, `settled` total and derived unsettled /
available balances; they enter the decision policy as opaque integer
quantities of the snapshot. -/
structure HermesChannel where
  identity         : String
  hermesID         : String
  lastPromise      : Promise
  lastPromiseRHex  : String
  beneficiary      : String
  channel          : ProviderChannel
  unsettledBalance : Int
  availableBalance : Int
  balanceV         : Int
  deriving DecidableEq, Repr

/-- `settlementState.needsSettling` (Go lines 827‑856).  The `threshold`
(`float64`, multiplied via `big.Float` and truncated toward zero at line 846)
is modelled as the exact rational value of the float; for dyadic thresholds
such as 0.5 the `big.Float` computation is exact. -/
def needsSettling (ss : SettlementState) (threshold : ℚ) (channel : HermesChannel) : Bool :=
  if !ss.registered then false
  else if ss.settleInProgress then false
  else if channel.channel.stake = 0 ∧ channel.unsettledBalance < Myst then false
  else
    let i := truncQ (threshold * (channel.availableBalance : ℚ))
    if channel.unsettledBalance < i then false
    else if channel.balanceV ≤ i then true
    else false

/-- Error values returned by the settler.  Go returns opaque `error` values;
each distinct construction site in the source gets its own constructor, with
the numeric payloads carrying collaborator error codes. -/
inductive SErr
  | alreadySettling
  | nothingToSettle
  | decodeError
  | feeFetchFailed (e : Nat)
  | hermesUrlFailed (e : Nat)
  | promiseFeeUpdateFailed (e : Nat)
  | hermesFeeFailed (e : Nat)
  | earningsBelowFees (earnings fees : Int)
  | subscribeFailed (e : Nat)
  | submitFailed (e : Nat)
  | settleTimeout
  | amountTooSmall (fee amount : Int)
  | wrongChain (requested expected : Int)
  | addressFailed (e : Nat)
  | balanceFailed (e : Nat)
  | nothingToWithdraw (balance : Int)
  | promiseIssueFailed (e : Nat)
  | payAndSettleFailed (e : Nat)
  | channelIdFailed (e : Nat)
  | promiseGetFailed (e : Nat)
  | signFailed (e : Nat)
  deriving DecidableEq, Repr

/-- Observable side effects of one settlement / withdrawal attempt, in the
order the source performs them. -/
inductive Effect
  | guardSet (b : Bool)
  | subscribeAttempt
  | submit
  | historyWrite
  | cancelSub
  deriving DecidableEq, Repr

/-- Oracle for the collaborators of `updatePromiseWithLatestFee`:
`transactor.FetchSettleFees` (its `Fee` field), hermes URL resolution inside
`getHermesCaller`, and the hermes caller's `UpdatePromiseFee` response to the
fetched fee. -/
structure FeeEnv where
  fetchSettleFees  : Except Nat Int
  getHermesURL     : Except Nat String
  updatePromiseFee : Int → Except Nat Promise

/-- `updatePromiseWithLatestFee` (Go lines 437‑456): fetch current settle
fees, resolve the hermes caller, have the hermes re-sign the promise with the
new fee, then re-attach the original secret `R`, overwriting whatever `R` the
response carried. Every collaborator failure is returned to the caller. -/
def updatePromiseWithLatestFee (env : FeeEnv) (promise : Promise) : Except SErr Promise :=
  match env.fetchSettleFees with
  | .error e => .error (.feeFetchFailed e)
  | .ok fee =>
    match env.getHermesURL with
    | .error e => .error (.hermesUrlFailed e)
    | .ok _ =>
      match env.updatePromiseFee fee with
      | .error e => .error (.promiseFeeUpdateFailed e)
      | .ok updatedPromise => .ok { updatedPromise with r := promise.r }

/-- Outcome of the three-way race run by the waiter goroutine after a
successful submission: the confirmation event arrives on the sink, the
`MaxWaitForSettlement` timer fires first, or the process `stop` channel
closes first. -/
inductive RaceOutcome
  | confirmedEvent
  | timedOut
  | shutdown
  deriving DecidableEq, Repr

/-- Oracle for the collaborators of `settle` / `payAndSettle`:
channel lookup, fee updating, `bc.CalculateHermesFee`,
`bc.SubscribeToPromiseSettledEvent`, the bound transaction-submission
function (`settleFunc`), and the race outcome observed by the waiter. -/
structure SettleEnv where
  channelGet        : Int → String → String → Option HermesChannel
  feeEnv            : FeeEnv
  calculateHermesFee : Int → Except Nat Int
  subscribe         : Except Nat Unit
  submitResult      : Option Nat
  race              : RaceOutcome

/-- `settle` (Go lines 653‑772), sequentialised.  The waiter goroutine's
behaviour is folded in according to the race outcome once submission has
succeeded; its deferred cleanup (`close(errCh)`, `setSettling(false)`,
`cancel()`) accounts for the trailing guard release and cancellation, and the
history entry is written only on the confirmation branch.  On a submission
failure the caller cancels the subscription and the waiter, woken by the
closed sink, runs the same deferred cleanup. -/
def settleRun (env : SettleEnv) (st : Store) (provider : String) (promise : Promise)
    (settled : Option Int) : Store × Option SErr × List Effect :=
  if isSettling st provider then (st, some .alreadySettling, [])
  else
    let st1 := setSettling st provider true
    match updatePromiseWithLatestFee env.feeEnv promise with
    | .error e => (setSettling st1 provider false, some e, [.guardSet true, .guardSet false])
    | .ok updatedPromise =>
      let settled1 := settled.getD 0
      let amountToSettle := updatedPromise.amount - settled1
      match env.calculateHermesFee amountToSettle with
      | .error e =>
        (setSettling st1 provider false, some (.hermesFeeFailed e),
         [.guardSet true, .guardSet false])
      | .ok fee =>
        let totalFees := fee + updatedPromise.fee
        if totalFees > amountToSettle then
          (setSettling st1 provider false, some (.earningsBelowFees amountToSettle totalFees),
           [.guardSet true, .guardSet false])
        else
          match env.subscribe with
          | .error e =>
            (setSettling st1 provider false, some (.subscribeFailed e),
             [.guardSet true, .subscribeAttempt, .guardSet false])
          | .ok _ =>
            match env.submitResult with
            | some e =>
              (setSettling st1 provider false, some (.submitFailed e),
               [.guardSet true, .subscribeAttempt, .submit, .cancelSub, .guardSet false])
            | none =>
              match env.race with
              | .confirmedEvent =>
                (setSettling st1 provider false, none,
                 [.guardSet true, .subscribeAttempt, .submit, .historyWrite,
                  .guardSet false, .cancelSub])
              | .timedOut =>
                (setSettling st1 provider false, some .settleTimeout,
                 [.guardSet true, .subscribeAttempt, .submit, .guardSet false, .cancelSub])
              | .shutdown =>
                (setSettling st1 provider false, none,
                 [.guardSet true, .subscribeAttempt, .submit, .guardSet false, .cancelSub])

/-- `ForceSettle` (Go lines 385‑407): channel lookup, hex-decode of the last
promise's secret, then `settle` with the channel's beneficiary and settled
total. -/
def ForceSettle (env : SettleEnv) (st : Store) (chainID : Int)
    (providerID hermesID : String) : Store × Option SErr × List Effect :=
  match env.channelGet chainID providerID hermesID with
  | none => (st, some .nothingToSettle, [])
  | some channel =>
    match hexDecode channel.lastPromiseRHex with
    | none => (st, some .decodeError, [])
    | some hexR =>
      settleRun env st providerID { channel.lastPromise with r := hexR } channel.channel.settled

/-- `SettleWithBeneficiary` (Go lines 410‑432): identical gating, with the
caller-supplied beneficiary bound into the submission function. -/
def SettleWithBeneficiary (env : SettleEnv) (st : Store) (chainID : Int)
    (providerID beneficiary hermesID : String) : Store × Option SErr × List Effect :=
  match env.channelGet chainID providerID hermesID with
  | none => (st, some .nothingToSettle, [])
  | some channel =>
    match hexDecode channel.lastPromiseRHex with
    | none => (st, some .decodeError, [])
    | some hexR =>
      settleRun env st providerID { channel.lastPromise with r := hexR } channel.channel.settled

/-- `SettleIntoStake` (Go lines 358‑379): identical gating, submitting via
`transactor.SettleIntoStake`. -/
def SettleIntoStake (env : SettleEnv) (st : Store) (chainID : Int)
    (providerID hermesID : String) : Store × Option SErr × List Effect :=
  match env.channelGet chainID providerID hermesID with
  | none => (st, some .nothingToSettle, [])
  | some channel =>
    match hexDecode channel.lastPromiseRHex with
    | none => (st, some .decodeError, [])
    | some hexR =>
      settleRun env st providerID { channel.lastPromise with r := hexR } channel.channel.settled

/-- A `HermesPromise` as read back from `promiseStorage.Get`: the promise plus
its hex-encoded secret `R`. -/
structure StoredPromise where
  promise : Promise
  rHex    : String
  deriving DecidableEq, Repr

/-- `payAndSettle` (Go lines 536‑594), sequentialised like `settleRun`.  It
never touches the `settleInProgress` flag (the enclosing `withdraw` owns the
guard) and its waiter writes no history entry; the fee-sufficiency bound is
the withdrawal amount. -/
def payAndSettleRun (env : SettleEnv) (promise : Promise) (withdrawalAmount : Int) :
    Option SErr × List Effect :=
  match updatePromiseWithLatestFee env.feeEnv promise with
  | .error e => (some e, [])
  | .ok updatedPromise =>
    if updatedPromise.fee > withdrawalAmount then
      (some (.amountTooSmall updatedPromise.fee withdrawalAmount), [])
    else
      match env.subscribe with
      | .error e => (some (.subscribeFailed e), [.subscribeAttempt])
      | .ok _ =>
        match env.submitResult with
        | some e => (some (.submitFailed e), [.subscribeAttempt, .submit, .cancelSub])
        | none =>
          match env.race with
          | .confirmedEvent => (none, [.subscribeAttempt, .submit, .cancelSub])
          | .timedOut => (some .settleTimeout, [.subscribeAttempt, .submit, .cancelSub])
          | .shutdown => (none, [.subscribeAttempt, .submit, .cancelSub])

/-- `HermesPromiseSettlerConfig` (Go lines 130‑135) restricted to the fields
`withdraw` reads. -/
structure Config where
  l1ChainID : Int
  l2ChainID : Int
  deriving DecidableEq, Repr

/-- Oracle for the extra collaborators of `withdraw`: address resolution,
consumer-channel balance, promise self-issue, the hermes pay-and-settle call,
channel-id generation, promise storage and payload signing, plus the
`SettleEnv` used by the final `payAndSettle`. -/
structure WithdrawEnv where
  settleEnv        : SettleEnv
  channelAddress   : Except Nat String
  activeHermes     : Except Nat String
  mystAddress      : Except Nat String
  mystBalance      : Except Nat Int
  selfPromiseMsg   : Except Nat Promise
  payAndSettleCall : Option Nat
  channelIdGen     : Except Nat String
  storedPromise    : Except Nat StoredPromise
  signPayload      : Option Nat

/-- `getWithdrawalAmount` (Go lines 635‑651): myst address, channel balance,
and the balance must be strictly positive. -/
def getWithdrawalAmount (env : WithdrawEnv) : Except SErr Int :=
  match env.mystAddress with
  | .error e => .error (.addressFailed e)
  | .ok _ =>
    match env.mystBalance with
    | .error e => .error (.balanceFailed e)
    | .ok balance =>
      if balance ≤ 0 then .error (.nothingToWithdraw balance) else .ok balance

/-- The body of `withdraw` after the guard has been acquired (Go lines
467‑533), in source order: L2-chain check, address resolution, balance read,
self-promise issue, hermes pay-and-settle call, promise fetch and decode,
beneficiary-payload signing, then `payAndSettle`. -/
def withdrawBody (env : WithdrawEnv) (cfg : Config) (chainID : Int) :
    Option SErr × List Effect :=
  if chainID ≠ cfg.l2ChainID then (some (.wrongChain chainID cfg.l2ChainID), [])
  else
    match env.channelAddress with
    | .error e => (some (.addressFailed e), [])
    | .ok _ =>
      match env.activeHermes with
      | .error e => (some (.addressFailed e), [])
      | .ok _ =>
        match getWithdrawalAmount env with
        | .error err => (some err, [])
        | .ok amountToWithdraw =>
          match env.selfPromiseMsg with
          | .error e => (some (.promiseIssueFailed e), [])
          | .ok _ =>
            match env.payAndSettleCall with
            | some e => (some (.payAndSettleFailed e), [])
            | none =>
              match env.channelIdGen with
              | .error e => (some (.channelIdFailed e), [])
              | .ok _ =>
                match env.storedPromise with
                | .error e => (some (.promiseGetFailed e), [])
                | .ok sp =>
                  match hexDecode sp.rHex with
                  | none => (some .decodeError, [])
                  | some decodedR =>
                    match env.signPayload with
                    | some e => (some (.signFailed e), [])
                    | none =>
                      payAndSettleRun env.settleEnv { sp.promise with r := decodedR }
                        amountToWithdraw

/-- `withdraw` (Go lines 458‑534): guard check, guard acquisition, and a
`defer aps.setSettling(providerID, false)` that releases the guard on every
exit path taken after acquisition. -/
def withdraw (env : WithdrawEnv) (cfg : Config) (st : Store) (chainID : Int)
    (providerID : String) : Store × Option SErr × List Effect :=
  if isSettling st providerID then (st, some .alreadySettling, [])
  else
    let st1 := setSettling st providerID true
    let r := withdrawBody env cfg chainID
    (setSettling st1 providerID false, r.1, .guardSet true :: (r.2 ++ [.guardSet false]))

/-- `registry.RegistrationStatus` (external registry package), restricted to
the values the settler compares against. -/
inductive RegStatus
  | unregistered
  | inProgress
  | registered
  | registrationError
  deriving DecidableEq, Repr

/-- `loadInitialState` (Go lines 166‑189): under the exclusive lock — skip if
the identity is already known, propagate a failed registration lookup, skip a
non-registered identity, and otherwise store `{registered: true,
settleInProgress: false}`. -/
def loadInitialState (lookup : Except Nat RegStatus) (st : Store) (id : String) :
    Store × Option Nat :=
  match st id with
  | some _ => (st, none)
  | none =>
    match lookup with
    | .error e => (st, some e)
    | .ok status =>
      if status = RegStatus.registered then
        (updateStore st id { settleInProgress := false, registered := true }, none)
      else (st, none)

/-- The auto-settlement trigger of `handleHermesPromiseReceived` (Go lines
271‑312): no stored state or an unregistered provider short-circuits to
"no trigger"; otherwise the decision policy decides. -/
def handleHermesPromiseTriggers (st : Store) (id : String) (threshold : ℚ)
    (channel : HermesChannel) : Bool :=
  match st id with
  | none => false
  | some s => if !s.registered then false else needsSettling s threshold channel

/-! ### Interleaving model of the guard prologue of `settle` / `withdraw`

`settle` (lines 661‑666) and `withdraw` (lines 459‑465) first call
`isSettling` — a read under the shared `RLock` — and only then, in a separate
critical section, `setSettling(..., true)` under the exclusive `Lock`.  Each
of the two calls is atomic, but nothing holds the lock across the pair, so
steps of two goroutines may interleave between them.  A thread is modelled by
its phase; a schedule is the order in which the scheduler lets the two
threads take their next atomic step. -/

/-- Phase of one thread running the guard prologue: about to check, checked
`false` and about to set, passed the guard, or rejected with
"already has settlement in progress". -/
inductive TPhase
  | ready
  | checkedFalse
  | passed
  | rejected
  deriving DecidableEq, Repr

/-- One atomic step of a thread in the guard prologue. -/
def guardStep (st : Store) (id : String) : TPhase → Store × TPhase
  | .ready => if isSettling st id then (st, .rejected) else (st, .checkedFalse)
  | .checkedFalse => (setSettling st id true, .passed)
  | p => (st, p)

/-- Configuration of two threads racing the guard prologue for one identity. -/
structure TwoThreads where
  store : Store
  p0    : TPhase
  p1    : TPhase

/-- Let thread `false` (thread 0) or thread `true` (thread 1) take its next
atomic step. -/
def stepThread (id : String) (c : TwoThreads) (t : Bool) : TwoThreads :=
  if t then
    let r := guardStep c.store id c.p1
    ⟨r.1, c.p0, r.2⟩
  else
    let r := guardStep c.store id c.p0
    ⟨r.1, r.2, c.p1⟩

/-- Run a schedule of atomic steps over two threads racing the guard. -/
def runSchedule (id : String) (sched : List Bool) (c : TwoThreads) : TwoThreads :=
  sched.foldl (stepThread id) c

/-! ### Event order of the waiter goroutine's timeout branch

On the `time.After` branch (Go lines 755‑760) the waiter sends
`ErrSettleTimeout` on the unbuffered `errCh` — the caller blocked at
`return <-errCh` observes the error at this synchronisation — and only then
returns, running its deferred calls in LIFO order: `close(errCh)`,
`setSettling(provider, false)`, `cancel()`. -/

/-- Atomic events of the waiter goroutine. -/
inductive WEvent
  | timerFire
  | sendErr
  | closeErrCh
  | releaseGuard
  | cancelSub
  deriving DecidableEq, Repr

/-- The timeout branch's events in execution order (select body, then the
deferred calls in LIFO order). -/
def timeoutWaiterTrace : List WEvent :=
  [.timerFire, .sendErr, .closeErrCh, .releaseGuard, .cancelSub]

/-- Effect of one waiter event on the state store. -/
def applyWEvent (id : String) (st : Store) : WEvent → Store
  | .releaseGuard => setSettling st id false
  | _ => st

/-- The state store at the moment the caller receives `ErrSettleTimeout`:
all waiter events strictly before the send have been applied to the store as
it was during the wait (guard held). -/
def storeAtTimeoutDelivery (id : String) (st : Store) : Store :=
  (timeoutWaiterTrace.takeWhile (fun e => !(e == WEvent.sendErr))).foldl (applyWEvent id) st

/-! ## Helper lemmas -/

theorem isSettling_setSettling_self (st : Store) (id : String) (b : Bool) :
    isSettling (setSettling st id b) id = b := by
  simp [isSettling, setSettling, updateStore]

theorem truncQ_eq_floor {q : ℚ} (h : 0 ≤ q) : truncQ q = ⌊q⌋ := by
  rw [truncQ, Int.tdiv_eq_ediv (Rat.num_nonneg.mpr h) (by positivity), Rat.floor_def]

theorem truncQ_nonneg {q : ℚ} (h : 0 ≤ q) : 0 ≤ truncQ q :=
  Int.tdiv_nonneg (Rat.num_nonneg.mpr h) (by positivity)

/-- Characterisation of the decision policy as a conjunction of the source's
guards. -/
theorem needsSettling_iff (ss : SettlementState) (th : ℚ) (ch : HermesChannel) :
    needsSettling ss th ch = true ↔
      ss.registered = true ∧ ss.settleInProgress = false ∧
      ¬(ch.channel.stake = 0 ∧ ch.unsettledBalance < Myst) ∧
      truncQ (th * (ch.availableBalance : ℚ)) ≤ ch.unsettledBalance ∧
      ch.balanceV ≤ truncQ (th * (ch.availableBalance : ℚ)) := by
  obtain ⟨sip, reg⟩ := ss
  simp only [needsSettling]
  cases reg <;> cases sip <;> split_ifs <;> simp_all

/-! ## Claims -/

/-- Concrete channel fixture: stake, unsettled balance, available balance,
on-chain balance. -/
def chFix (stake unsettled avail bal : Int) : HermesChannel :=
  { identity := "p", hermesID := "h",
    lastPromise := { chainID := 1, amount := 0, fee := 0, r := [] },
    lastPromiseRHex := "", beneficiary := "b",
    channel := { stake := stake, settled := none },
    unsettledBalance := unsettled, availableBalance := avail, balanceV := bal }

/-- C2, counterexample: for `threshold = 0.5`, `stake = 0`,
`unsettled = 1 MYST`, `balance = 0`, `availableBalance = 2·MYST + 1` (odd),
the code settles (`needsSettling = true`) although `unsettled ≥ 0.5 ×
availableBalance` is false as an exact comparison: the code compares against
the truncation of `0.5 × availableBalance`, not against the product itself. -/
theorem needsSettling_half_exact_ce :
    needsSettling ⟨false, true⟩ (1/2) (chFix 0 Myst (2 * Myst + 1) 0) = true
    ∧ ¬(((1 : ℚ)/2) * (((2 * Myst + 1 : Int)) : ℚ) ≤ ((Myst : Int) : ℚ)) := by
  have htr : truncQ ((1/2 : ℚ) * (((2 * Myst + 1 : Int)) : ℚ)) = Myst := by
    rw [truncQ_eq_floor (by norm_num [Myst])]
    norm_num [Myst]
  constructor
  · rw [needsSettling_iff]
    refine ⟨rfl, rfl, by simp [chFix, Myst], ?_, ?_⟩
    · simp only [chFix]
      rw [htr]
    · simp only [chFix]
      rw [htr]
      norm_num [Myst]
  · push_cast
    norm_num [Myst]

/-- C2 (amended): `needsSettling` is a pure function of (state, threshold,
channel): false if not registered; false if settlement is in progress; false
if stake is zero and the unsettled balance is below one MYST; otherwise true
exactly when, for `calculatedThreshold` the truncation toward zero of
`threshold × availableBalance`, the unsettled balance is at least
`calculatedThreshold` and the balance is at most `calculatedThreshold`.  In
particular, for any threshold, stake 0 and unsettled < 1 MYST give false
regardless of the other fields; and for threshold 0.5, stake 0, unsettled ≥
1 MYST, balance 0 and nonnegative availableBalance it is true exactly when
the unsettled balance is at least the truncation of 0.5 × availableBalance
(not the exact product 0.5 × availableBalance, from which it differs at odd
available balances). -/
theorem needsSettling_policy (ss : SettlementState) (th : ℚ) (ch : HermesChannel) :
    (ss.registered = false → needsSettling ss th ch = false)
    ∧ (ss.settleInProgress = true → needsSettling ss th ch = false)
    ∧ (ch.channel.stake = 0 → ch.unsettledBalance < Myst → needsSettling ss th ch = false)
    ∧ (needsSettling ss th ch = true ↔
        ss.registered = true ∧ ss.settleInProgress = false ∧
        ¬(ch.channel.stake = 0 ∧ ch.unsettledBalance < Myst) ∧
        truncQ (th * (ch.availableBalance : ℚ)) ≤ ch.unsettledBalance ∧
        ch.balanceV ≤ truncQ (th * (ch.availableBalance : ℚ)))
    ∧ (ss.registered = true → ss.settleInProgress = false → ch.channel.stake = 0 →
        Myst ≤ ch.unsettledBalance → ch.balanceV = 0 → 0 ≤ ch.availableBalance →
        (needsSettling ss (1/2) ch = true ↔
          truncQ ((1/2 : ℚ) * (ch.availableBalance : ℚ)) ≤ ch.unsettledBalance)) := by
  refine ⟨?_, ?_, ?_, needsSettling_iff ss th ch, ?_⟩
  · intro h
    rw [Bool.eq_false_iff]
    intro ht
    have := ((needsSettling_iff ss th ch).mp ht).1
    simp [h] at this
  · intro h
    rw [Bool.eq_false_iff]
    intro ht
    have := ((needsSettling_iff ss th ch).mp ht).2.1
    simp [h] at this
  · intro h1 h2
    rw [Bool.eq_false_iff]
    intro ht
    exact ((needsSettling_iff ss th ch).mp ht).2.2.1 ⟨h1, h2⟩
  · intro hreg hsip hstake huns hbal havail
    rw [needsSettling_iff]
    constructor
    · exact fun h => h.2.2.2.1
    · intro h4
      refine ⟨hreg, hsip, ?_, h4, ?_⟩
      · rintro ⟨-, hlt⟩
        omega
      · rw [hbal]
        exact truncQ_nonneg (mul_nonneg (by norm_num) (by exact_mod_cast havail))

/-- C2, witness: the amended theorem applied at a concrete state and channel:
registered, not in progress, stake 0, unsettled = 1 MYST, availableBalance =
2·MYST (even), balance 0, threshold 0.5 — the policy fires. -/
theorem needsSettling_policy_witness :
    needsSettling ⟨false, true⟩ (1/2) (chFix 0 Myst (2 * Myst) 0) = true := by
  have h := (needsSettling_policy ⟨false, true⟩ (1/2) (chFix 0 Myst (2 * Myst) 0)).2.2.2.2
  have htr : truncQ ((1/2 : ℚ) * (((chFix 0 Myst (2 * Myst) 0).availableBalance : Int) : ℚ)) = Myst := by
    rw [truncQ_eq_floor (by norm_num [chFix, Myst])]
    norm_num [chFix, Myst]
  rw [h rfl rfl rfl (by norm_num [chFix]) rfl (by norm_num [chFix, Myst]), htr]
  simp [chFix]

/-- C8: `updatePromiseWithLatestFee` returns the counterparty-re-signed
promise with the original promise's secret `R` re-attached (overwriting the
`R` of the response), and propagates an error whenever the settle-fee fetch,
the hermes endpoint resolution, or the re-sign call fails. -/
theorem updatePromiseWithLatestFee_spec (env : FeeEnv) (promise : Promise) :
    (∀ fee url up, env.fetchSettleFees = .ok fee → env.getHermesURL = .ok url →
        env.updatePromiseFee fee = .ok up →
        updatePromiseWithLatestFee env promise = .ok { up with r := promise.r })
    ∧ (∀ e, env.fetchSettleFees = .error e →
        updatePromiseWithLatestFee env promise = .error (.feeFetchFailed e))
    ∧ (∀ fee e, env.fetchSettleFees = .ok fee → env.getHermesURL = .error e →
        updatePromiseWithLatestFee env promise = .error (.hermesUrlFailed e))
    ∧ (∀ fee url e, env.fetchSettleFees = .ok fee → env.getHermesURL = .ok url →
        env.updatePromiseFee fee = .error e →
        updatePromiseWithLatestFee env promise = .error (.promiseFeeUpdateFailed e)) := by
  refine ⟨?_, ?_, ?_, ?_⟩ <;> intros <;> simp_all [updatePromiseWithLatestFee]

/-- Fee-update oracle whose re-sign response carries a different secret, to
exercise the re-attachment. -/
def feeEnvW : FeeEnv :=
  { fetchSettleFees := .ok 5, getHermesURL := .ok "u",
    updatePromiseFee := fun fee => .ok { chainID := 1, amount := 100, fee := fee, r := [9] } }

/-- C8, witness: with a fetched fee of 5 and a response carrying secret `[9]`,
the updated promise carries the fetched fee and the original secret `[7]`. -/
theorem updatePromiseWithLatestFee_spec_witness :
    updatePromiseWithLatestFee feeEnvW { chainID := 1, amount := 90, fee := 2, r := [7] } =
      .ok { chainID := 1, amount := 100, fee := 5, r := [7] } :=
  (updatePromiseWithLatestFee_spec feeEnvW
    { chainID := 1, amount := 90, fee := 2, r := [7] }).1 5 "u"
    { chainID := 1, amount := 100, fee := 5, r := [9] } rfl rfl rfl

/-- C7: `loadInitialState` initialises per-identity state at most once: a call
for an already-known identity returns nil and leaves the store unchanged (so
a `settleInProgress = true` flag is never clobbered); with no stored state it
stores `{registered: true, settleInProgress: false}` exactly when the lookup
reports Registered, propagates a lookup error without storing, stores nothing
for a non-Registered status, and in the two no-store cases the
promise-received auto-settlement trigger can never fire for the identity. -/
theorem loadInitialState_spec (lookup : Except Nat RegStatus) (st : Store) (id : String) :
    ((st id).isSome → loadInitialState lookup st id = (st, none))
    ∧ (st id = none → lookup = .ok .registered →
        loadInitialState lookup st id =
          (updateStore st id { settleInProgress := false, registered := true }, none))
    ∧ (∀ e, st id = none → lookup = .error e → loadInitialState lookup st id = (st, some e))
    ∧ (∀ status, st id = none → lookup = .ok status → status ≠ .registered →
        loadInitialState lookup st id = (st, none))
    ∧ (st id = none → lookup ≠ .ok .registered →
        ∀ th ch, handleHermesPromiseTriggers (loadInitialState lookup st id).1 id th ch = false) := by
  refine ⟨?_, ?_, ?_, ?_, ?_⟩
  · intro h
    obtain ⟨v, hv⟩ := Option.isSome_iff_exists.mp h
    simp [loadInitialState, hv]
  · intro h1 h2
    simp [loadInitialState, h1, h2]
  · intro e h1 h2
    simp [loadInitialState, h1, h2]
  · intro status h1 h2 h3
    simp [loadInitialState, h1, h2, h3]
  · intro h1 h2 th ch
    rcases hl : lookup with e | status
    · simp [loadInitialState, h1, hl, handleHermesPromiseTriggers]
    · by_cases hs : status = RegStatus.registered
      · exact absurd (hs ▸ hl) h2
      · simp [loadInitialState, h1, hl, hs, handleHermesPromiseTriggers]

/-- A store already holding an in-progress, registered identity. -/
def stBusy : Store := updateStore emptyStore "p" ⟨true, true⟩

/-- C7, witness: a second load for a known identity (whose settlement is in
progress) is a no-op; a first load stores `{false, true}`; a failed lookup
stores nothing and returns the error; after a failed lookup the
auto-settlement trigger stays off. -/
theorem loadInitialState_spec_witness :
    loadInitialState (.ok .registered) stBusy "p" = (stBusy, none)
    ∧ loadInitialState (.ok .registered) emptyStore "p" =
        (updateStore emptyStore "p" { settleInProgress := false, registered := true }, none)
    ∧ loadInitialState (.error 3) emptyStore "p" = (emptyStore, some 3)
    ∧ handleHermesPromiseTriggers (loadInitialState (.error 3) emptyStore "p").1 "p" (1/2)
        (chFix 0 0 0 0) = false :=
  ⟨(loadInitialState_spec (.ok .registered) stBusy "p").1 (by simp [stBusy, updateStore]),
   (loadInitialState_spec (.ok .registered) emptyStore "p").2.1 rfl rfl,
   (loadInitialState_spec (.error 3) emptyStore "p").2.2.1 3 rfl rfl,
   (loadInitialState_spec (.error 3) emptyStore "p").2.2.2.2 rfl (by simp) (1/2) (chFix 0 0 0 0)⟩

/-- C6: when the channel provider finds no channel for the (chainID,
providerID, hermesID) tuple, `ForceSettle`, `SettleWithBeneficiary` and
`SettleIntoStake` all return the distinguished `nothing to settle` value with
no side effects: the state store is unchanged and no effect — no guard, no
fee update, no subscription, no submission — is performed. -/
theorem settle_nothingToSettle (env : SettleEnv) (st : Store) (chainID : Int)
    (providerID beneficiary hermesID : String)
    (h : env.channelGet chainID providerID hermesID = none) :
    ForceSettle env st chainID providerID hermesID = (st, some .nothingToSettle, [])
    ∧ SettleWithBeneficiary env st chainID providerID beneficiary hermesID =
        (st, some .nothingToSettle, [])
    ∧ SettleIntoStake env st chainID providerID hermesID = (st, some .nothingToSettle, []) := by
  refine ⟨?_, ?_, ?_⟩ <;> simp [ForceSettle, SettleWithBeneficiary, SettleIntoStake, h]

/-- A settle oracle with no channels. -/
def envNoChannel : SettleEnv :=
  { channelGet := fun _ _ _ => none, feeEnv := feeEnvW,
    calculateHermesFee := fun _ => .ok 0, subscribe := .ok (), submitResult := none,
    race := .confirmedEvent }

/-- C6, witness: the three entry points at a concrete missing channel. -/
theorem settle_nothingToSettle_witness :
    ForceSettle envNoChannel emptyStore 1 "p" "h" = (emptyStore, some .nothingToSettle, [])
    ∧ SettleWithBeneficiary envNoChannel emptyStore 1 "p" "b" "h" =
        (emptyStore, some .nothingToSettle, [])
    ∧ SettleIntoStake envNoChannel emptyStore 1 "p" "h" =
        (emptyStore, some .nothingToSettle, []) :=
  settle_nothingToSettle envNoChannel emptyStore 1 "p" "b" "h" rfl

/-- C3: in `settle`, the amount to settle is the updated promise's amount
minus the already-settled total, the latter taken as zero when nil; if the
hermes fee for that amount plus the updated promise's fee exceeds it, the
attempt fails with the fees-exceed-earnings error carrying exactly these
figures, the guard is released, and no subscription or submission occurs
(the effect trace is only the guard acquisition and release); if the combined
fees do not exceed the amount (and the confirmation subscription succeeds)
the attempt proceeds to submission. -/
theorem settle_fee_sufficiency (env : SettleEnv) (st : Store) (provider : String)
    (promise : Promise) (settled : Option Int) (up : Promise) (fee : Int)
    (hfree : isSettling st provider = false)
    (hup : updatePromiseWithLatestFee env.feeEnv promise = .ok up)
    (hfee : env.calculateHermesFee (up.amount - settled.getD 0) = .ok fee) :
    (fee + up.fee > up.amount - settled.getD 0 →
      settleRun env st provider promise settled =
        (setSettling (setSettling st provider true) provider false,
         some (.earningsBelowFees (up.amount - settled.getD 0) (fee + up.fee)),
         [.guardSet true, .guardSet false])
      ∧ isSettling (settleRun env st provider promise settled).1 provider = false)
    ∧ (fee + up.fee ≤ up.amount - settled.getD 0 → env.subscribe = .ok () →
        Effect.submit ∈ (settleRun env st provider promise settled).2.2) := by
  constructor
  · intro hgt
    constructor
    · simp [settleRun, hfree, hup, hfee, hgt]
    · simp [settleRun, hfree, hup, hfee, hgt, isSettling_setSettling_self]
  · intro hle hsub
    cases hsr : env.submitResult <;> cases hr : env.race <;>
      simp [settleRun, hfree, hup, hfee, not_lt.mpr hle, hsub, hsr, hr]

/-- A concrete promise: amount 100, transactor fee 10. -/
def promiseW : Promise := { chainID := 1, amount := 100, fee := 10, r := [] }

/-- Fee-update oracle that re-signs `promiseW` with the same figures. -/
def feeEnvSettle : FeeEnv :=
  { fetchSettleFees := .ok 10, getHermesURL := .ok "u",
    updatePromiseFee := fun fee => .ok { chainID := 1, amount := 100, fee := fee, r := [] } }

/-- Settle oracle charging a hermes fee of 95. -/
def envHermes95 : SettleEnv :=
  { channelGet := fun _ _ _ => none, feeEnv := feeEnvSettle,
    calculateHermesFee := fun _ => .ok 95, subscribe := .ok (), submitResult := none,
    race := .confirmedEvent }

/-- Settle oracle charging a hermes fee of 50. -/
def envHermes50 : SettleEnv :=
  { envHermes95 with calculateHermesFee := fun _ => .ok 50 }

/-- C3, witness: with `amountToSettle = 100` and `promiseFee = 10`, a hermes
fee of 95 is rejected with the fees-exceed-earnings error (and no
subscription or submission), while a hermes fee of 50 proceeds to
submission. -/
theorem settle_fee_sufficiency_witness :
    settleRun envHermes95 emptyStore "p" promiseW none =
      (setSettling (setSettling emptyStore "p" true) "p" false,
       some (.earningsBelowFees 100 105), [.guardSet true, .guardSet false])
    ∧ Effect.submit ∈ (settleRun envHermes50 emptyStore "p" promiseW none).2.2 := by
  constructor
  · have h := ((settle_fee_sufficiency envHermes95 emptyStore "p" promiseW none
      { chainID := 1, amount := 100, fee := 10, r := [] } 95 rfl rfl rfl).1
      (by norm_num)).1
    simpa using h
  · exact (settle_fee_sufficiency envHermes50 emptyStore "p" promiseW none
      { chainID := 1, amount := 100, fee := 10, r := [] } 50 rfl rfl rfl).2
      (by norm_num) rfl

/-- C5: if the shutdown signal fires while `settle` waits for the
confirmation event (submission having succeeded), `settle` returns no error,
writes no settlement-history entry, cancels the event subscription, and
releases the `settleInProgress` guard. -/
theorem settle_shutdown_spec (env : SettleEnv) (st : Store) (provider : String)
    (promise : Promise) (settled : Option Int) (up : Promise) (fee : Int)
    (hfree : isSettling st provider = false)
    (hup : updatePromiseWithLatestFee env.feeEnv promise = .ok up)
    (hfee : env.calculateHermesFee (up.amount - settled.getD 0) = .ok fee)
    (hok : fee + up.fee ≤ up.amount - settled.getD 0)
    (hsub : env.subscribe = .ok ()) (hsubmit : env.submitResult = none)
    (hrace : env.race = .shutdown) :
    (settleRun env st provider promise settled).2.1 = none
    ∧ Effect.historyWrite ∉ (settleRun env st provider promise settled).2.2
    ∧ Effect.cancelSub ∈ (settleRun env st provider promise settled).2.2
    ∧ isSettling (settleRun env st provider promise settled).1 provider = false := by
  refine ⟨?_, ?_, ?_, ?_⟩ <;>
    simp [settleRun, hfree, hup, hfee, not_lt.mpr hok, hsub, hsubmit, hrace,
      isSettling_setSettling_self]

/-- Settle oracle where the process shutdown signal wins the race. -/
def envShutdown : SettleEnv := { envHermes50 with race := .shutdown }

/-- C5, witness: the shutdown outcome at a concrete oracle. -/
theorem settle_shutdown_spec_witness :
    (settleRun envShutdown emptyStore "p" promiseW none).2.1 = none
    ∧ Effect.historyWrite ∉ (settleRun envShutdown emptyStore "p" promiseW none).2.2
    ∧ Effect.cancelSub ∈ (settleRun envShutdown emptyStore "p" promiseW none).2.2
    ∧ isSettling (settleRun envShutdown emptyStore "p" promiseW none).1 "p" = false :=
  settle_shutdown_spec envShutdown emptyStore "p" promiseW none
    { chainID := 1, amount := 100, fee := 10, r := [] } 50 rfl rfl rfl (by norm_num) rfl rfl rfl

/-- C9: in the withdrawal flow, `payAndSettle` bounds fees by the withdrawal
amount: it fails with the amount-too-small error — before any subscription or
submission — exactly when the updated promise's fee exceeds the withdrawal
amount, and otherwise proceeds to submission and the same confirm-or-timeout
race as `settle`. -/
theorem payAndSettle_fee_bound (env : SettleEnv) (promise : Promise) (wAmt : Int)
    (up : Promise) (hup : updatePromiseWithLatestFee env.feeEnv promise = .ok up) :
    ((payAndSettleRun env promise wAmt).1 = some (.amountTooSmall up.fee wAmt) ↔ up.fee > wAmt)
    ∧ (up.fee > wAmt →
        payAndSettleRun env promise wAmt = (some (.amountTooSmall up.fee wAmt), []))
    ∧ (up.fee ≤ wAmt → env.subscribe = .ok () → env.submitResult = none →
        Effect.submit ∈ (payAndSettleRun env promise wAmt).2
        ∧ (env.race = .timedOut → (payAndSettleRun env promise wAmt).1 = some .settleTimeout)
        ∧ (env.race = .confirmedEvent → (payAndSettleRun env promise wAmt).1 = none)
        ∧ (env.race = .shutdown → (payAndSettleRun env promise wAmt).1 = none)) := by
  refine ⟨?_, ?_, ?_⟩
  · constructor
    · intro hres
      by_contra hle
      rcases hs : env.subscribe with e | u
      · simp [payAndSettleRun, hup, hle, hs] at hres
      · rcases hsr : env.submitResult with _ | e
        · cases hr : env.race <;>
            simp [payAndSettleRun, hup, hle, hs, hsr, hr] at hres
        · simp [payAndSettleRun, hup, hle, hs, hsr] at hres
    · intro hgt
      simp [payAndSettleRun, hup, hgt]
  · intro hgt
    simp [payAndSettleRun, hup, hgt]
  · intro hle hsub hsubmit
    refine ⟨?_, ?_, ?_, ?_⟩
    · cases hr : env.race <;>
        simp [payAndSettleRun, hup, not_lt.mpr hle, hsub, hsubmit, hr]
    all_goals
      intro hr
      simp [payAndSettleRun, hup, not_lt.mpr hle, hsub, hsubmit, hr]

/-- C9, witness: a withdrawal of 3 with an updated fee of 5 is rejected (fee
exceeds the withdrawal amount, no effects), while a withdrawal of 100 with
the same promise proceeds to submission and times out with the settle-timeout
error when no confirmation arrives. -/
theorem payAndSettle_fee_bound_witness :
    payAndSettleRun { envHermes50 with race := .timedOut } promiseW 3 =
      (some (.amountTooSmall 10 3), [])
    ∧ Effect.submit ∈ (payAndSettleRun { envHermes50 with race := .timedOut } promiseW 100).2
    ∧ (payAndSettleRun { envHermes50 with race := .timedOut } promiseW 100).1 =
        some .settleTimeout := by
  have hA := (payAndSettle_fee_bound { envHermes50 with race := .timedOut } promiseW 3
    { chainID := 1, amount := 100, fee := 10, r := [] } rfl).2.1 (by norm_num)
  have hB := (payAndSettle_fee_bound { envHermes50 with race := .timedOut } promiseW 100
    { chainID := 1, amount := 100, fee := 10, r := [] } rfl).2.2 (by norm_num) rfl rfl
  exact ⟨hA, hB.1, hB.2.1 rfl⟩

/-- C10: `withdraw` returns an error whenever the requested chain differs
from the configured L2 chain; when the guard is free this check runs only
after the guard has been acquired (the effect trace on that exit is exactly
guard acquisition followed by guard release), and on every exit path taken
after acquisition — whatever the collaborators do — the trace starts with the
acquisition, ends with the release, and the final store shows the guard
free. -/
theorem withdraw_l2_guard (env : WithdrawEnv) (cfg : Config) (st : Store) (chainID : Int)
    (providerID : String) (hfree : isSettling st providerID = false)
    (hne : chainID ≠ cfg.l2ChainID) :
    withdraw env cfg st chainID providerID =
      (setSettling (setSettling st providerID true) providerID false,
       some (.wrongChain chainID cfg.l2ChainID), [.guardSet true, .guardSet false])
    ∧ (∀ env' st' cid, isSettling st' providerID = false →
        (withdraw env' cfg st' cid providerID).2.2.head? = some (.guardSet true)
        ∧ (withdraw env' cfg st' cid providerID).2.2.getLast? = some (.guardSet false)
        ∧ isSettling (withdraw env' cfg st' cid providerID).1 providerID = false) := by
  constructor
  · simp [withdraw, hfree, withdrawBody, hne]
  · intro env' st' cid hf
    have hw : withdraw env' cfg st' cid providerID =
        (setSettling (setSettling st' providerID true) providerID false,
         (withdrawBody env' cfg cid).1,
         .guardSet true :: ((withdrawBody env' cfg cid).2 ++ [.guardSet false])) := by
      simp [withdraw, hf]
    refine ⟨?_, ?_, ?_⟩
    · rw [hw]
      rfl
    · rw [hw]
      show (Effect.guardSet true :: ((withdrawBody env' cfg cid).2 ++ [Effect.guardSet false])).getLast? = _
      rw [← List.cons_append, List.getLast?_concat]
    · rw [hw]
      exact isSettling_setSettling_self _ _ _

/-- A withdraw oracle whose collaborators all succeed. -/
def wEnvOk : WithdrawEnv :=
  { settleEnv := envHermes50, channelAddress := .ok "ca", activeHermes := .ok "ah",
    mystAddress := .ok "ma", mystBalance := .ok 100, selfPromiseMsg := .ok promiseW,
    payAndSettleCall := none, channelIdGen := .ok "cid",
    storedPromise := .ok { promise := promiseW, rHex := "0a" }, signPayload := none }

/-- C10, witness: with the L2 chain configured as 137, a withdrawal requested
on chain 1 errors after taking and releasing the guard. -/
theorem withdraw_l2_guard_witness :
    withdraw wEnvOk { l1ChainID := 1, l2ChainID := 137 } emptyStore 1 "p" =
      (setSettling (setSettling emptyStore "p" true) "p" false,
       some (.wrongChain 1 137), [.guardSet true, .guardSet false])
    ∧ isSettling (withdraw wEnvOk { l1ChainID := 1, l2ChainID := 137 } emptyStore 1 "p").1 "p"
      = false := by
  have h := withdraw_l2_guard wEnvOk { l1ChainID := 1, l2ChainID := 137 } emptyStore 1 "p"
    rfl (by norm_num)
  exact ⟨h.1, (h.2 wEnvOk emptyStore 1 rfl).2.2⟩

/-- Settle oracle where the wait for confirmation times out. -/
def envTimeout : SettleEnv := { envHermes50 with race := .timedOut }

/-- C4, counterexample: in the interleaving where the caller receives
`ErrSettleTimeout` at the unbuffered-channel synchronisation and runs before
the waiter's deferred cleanup, the guard is still held at the moment the
caller observes the error — the release event sits strictly after the send in
the waiter's own execution order — so an immediately retried settlement is
rejected by the guard instead of proceeding. -/
theorem settle_timeout_release_ce :
    isSettling (storeAtTimeoutDelivery "p" (setSettling emptyStore "p" true)) "p" = true
    ∧ (settleRun envTimeout (storeAtTimeoutDelivery "p" (setSettling emptyStore "p" true))
        "p" promiseW none).2.1 = some .alreadySettling
    ∧ timeoutWaiterTrace.indexOf WEvent.sendErr < timeoutWaiterTrace.indexOf WEvent.releaseGuard := by
  refine ⟨rfl, rfl, by decide⟩

/-- C4 (amended): if no confirmation arrives within `MaxWaitForSettlement`
after a successful submission, `settle` returns the settle-timeout error — a
value distinct from every submission-failure value — and the guard is
released by the waiter's deferred cleanup, which runs after the error has
been delivered to the caller: once the waiter has finished, the store shows
the guard free, so a subsequent settlement proceeds past the guard (an
immediate retry racing the deferred cleanup may still find the guard held). -/
theorem settle_timeout_spec (env : SettleEnv) (st : Store) (provider : String)
    (promise : Promise) (settled : Option Int) (up : Promise) (fee : Int)
    (hfree : isSettling st provider = false)
    (hup : updatePromiseWithLatestFee env.feeEnv promise = .ok up)
    (hfee : env.calculateHermesFee (up.amount - settled.getD 0) = .ok fee)
    (hok : fee + up.fee ≤ up.amount - settled.getD 0)
    (hsub : env.subscribe = .ok ()) (hsubmit : env.submitResult = none)
    (hrace : env.race = .timedOut) :
    (settleRun env st provider promise settled).2.1 = some .settleTimeout
    ∧ (∀ e, SErr.settleTimeout ≠ SErr.submitFailed e)
    ∧ isSettling (settleRun env st provider promise settled).1 provider = false
    ∧ timeoutWaiterTrace.indexOf WEvent.sendErr < timeoutWaiterTrace.indexOf WEvent.releaseGuard := by
  refine ⟨?_, by intro e; simp, ?_, by decide⟩ <;>
    simp [settleRun, hfree, hup, hfee, not_lt.mpr hok, hsub, hsubmit, hrace,
      isSettling_setSettling_self]

/-- C4, witness: the amended theorem at a concrete oracle. -/
theorem settle_timeout_spec_witness :
    (settleRun envTimeout emptyStore "p" promiseW none).2.1 = some .settleTimeout
    ∧ isSettling (settleRun envTimeout emptyStore "p" promiseW none).1 "p" = false := by
  have h := settle_timeout_spec envTimeout emptyStore "p" promiseW none
    { chainID := 1, amount := 100, fee := 10, r := [] } 50 rfl rfl rfl (by norm_num) rfl rfl rfl
  exact ⟨h.1, h.2.2.1⟩

/-- C1: code bug.  The guard prologue of `settle` and `withdraw` is
check-then-set across two separate critical sections (`isSettling` under the
shared read lock, then `setSettling` under the exclusive lock), not an atomic
test-and-set.  In the interleaving check₀, check₁, set₀, set₁ both racing
`settle` calls for the same identity pass the guard — refuting "exactly one
proceeds past the guard".  When the two check-set pairs do not interleave the
second call is rejected, and a call arriving while `settleInProgress` is
already true returns the already-settling error immediately with no state
change and no effects. -/
theorem settle_guard_race_bug :
    (runSchedule "p" [false, true, false, true] ⟨emptyStore, .ready, .ready⟩).p0 = .passed
    ∧ (runSchedule "p" [false, true, false, true] ⟨emptyStore, .ready, .ready⟩).p1 = .passed
    ∧ (runSchedule "p" [false, false, true] ⟨emptyStore, .ready, .ready⟩).p0 = .passed
    ∧ (runSchedule "p" [false, false, true] ⟨emptyStore, .ready, .ready⟩).p1 = .rejected
    ∧ settleRun envTimeout (setSettling emptyStore "p" true) "p" promiseW none =
        (setSettling emptyStore "p" true, some .alreadySettling, []) := by
  refine ⟨?_, ?_, ?_, ?_, ?_⟩ <;> rfl

end HermesSettler
